import Mathlib

/-!
Shallow embedding of the browser workflow controller in
`src/static/js/app.js` (german-pdf-summarizer).

The controller is single-threaded and event-driven; each DOM event handler
is modelled as a pure function from the session state (and the outcome of
the single network call, supplied as a parameter) to the new session state
together with the chronological list of UI effects it performs.  The UI
effects are folded into a `Dom` record by `applyAction`, whose cases are
the render helper functions of the source, translated one-to-one.

JavaScript truthiness of string-valued fields (absent or empty string are
both falsy) is modelled by `truthyS` on `Option String`; the JS `x || y`
idiom on such fields is `orElseStr`.  Object- and array-valued fields are
`Option _` where `some _` is always truthy, matching JS (even an empty
array is truthy).
-/

namespace PdfApp

/-- Optional sub-fields of `result.extracted_info` (see `populateExtractedInfo`). -/
structure ExtractedInfo where
  organization : Option String
  reference_number : Option String
  location : Option String
  important_dates : Option (List String)
  persons : Option (List String)
deriving Repr, DecidableEq

/-- Optional sub-fields of `result.processing_stats` (see `populateStatistics`). -/
structure ProcessingStats where
  total_time : Option Nat
  quality_score : Option Nat
  word_count : Option Nat
  extraction_method : Option String
deriving Repr, DecidableEq

instance : Inhabited ProcessingStats := ⟨⟨none, none, none, none⟩⟩

/-- The Processing Result payload decoded from the response body. -/
structure ResultPayload where
  success : Bool
  error : Option String
  filename : Option String
  company_name : Option String
  file_size : Option String
  summary : Option String
  extracted_info : Option ExtractedInfo
  processing_stats : Option ProcessingStats
deriving Repr, DecidableEq

/-- Session State: the two mutable variables of the controller
(`let latestFilename = ''; let isProcessing = false;`).
`latestFilename` is `Option String` because `latestFilename = result.filename`
can store JS `undefined` (`none`); the initial `''` is `some ""`. -/
structure SessState where
  isProcessing : Bool
  latestFilename : Option String
deriving Repr, DecidableEq

/-- The initial session state at page load. -/
def initState : SessState := ⟨false, some ("")⟩

/-- A JS `Error` value: its `name` and `message` properties, which are all
the catch-block classification reads. -/
structure Err where
  name : String
  message : String
deriving Repr, DecidableEq

/-- The outcome of the single `fetch` call and of the body decoding:
  * `aborted` — the deadline fired and the promise rejected with an `AbortError`;
  * `transportFail` — network unreachable, `TypeError: Failed to fetch`;
  * `httpError status errBody` — a response with `ok = false`; `errBody` is
    `none` when the body is not valid JSON and `some e` when it decodes to an
    object whose `error` field is `e`;
  * `ok body` — a response with `ok = true`; `body` is `none` when the body is
    not valid JSON (then `response.json()` rejects with a `SyntaxError`). -/
inductive FetchOutcome where
  | aborted : FetchOutcome
  | transportFail : FetchOutcome
  | httpError (status : Nat) (errBody : Option (Option String)) : FetchOutcome
  | ok (body : Option ResultPayload) : FetchOutcome
deriving Repr, DecidableEq

/-- JS truthiness of a string-valued field: absent (`undefined`) and the
empty string are falsy. -/
def truthyS : Option String → Bool
  | some s => !(s = "")
  | none => false

/-- The JS `o || fb` idiom on a string-valued field. -/
def orElseStr (o : Option String) (fb : String) : String :=
  match o with
  | some s => if s = "" then fb else s
  | none => fb

/-- Template-literal stringification of a possibly-undefined string. -/
def jsStr : Option String → String
  | some s => s
  | none => "undefined"

/-- Whether `pat` is an initial segment of `s` (char-list level). -/
def hasPrefixL : List Char → List Char → Bool
  | _, [] => true
  | [], _ :: _ => false
  | c :: cs, p :: ps => (c = p) && hasPrefixL cs ps

/-- Whether `pat` occurs contiguously in `s` (char-list level). -/
def hasInfixL (pat : List Char) : List Char → Bool
  | [] => pat.isEmpty
  | c :: rest => hasPrefixL (c :: rest) pat || hasInfixL pat rest

/-- Substring test, modelling `String.prototype.includes`. -/
def strContains (s pat : String) : Bool :=
  hasInfixL pat.toList s.toList

/-- Drop whitespace from both ends of a char list. -/
def trimL (l : List Char) : List Char :=
  ((l.dropWhile Char.isWhitespace).reverse.dropWhile Char.isWhitespace).reverse

/-- `String.prototype.trim`: strip leading and trailing whitespace. -/
def jsTrim (s : String) : String := String.mk (trimL s.toList)

/-- One pass of global, non-overlapping, left-to-right replacement of the
(non-empty) pattern `pat` by `repl`, with the list length as fuel; after a
match the scan resumes right after the matched segment, exactly as a global
regex replace over a fixed pattern does. -/
def replaceFuel (pat repl : List Char) : Nat → List Char → List Char
  | 0, l => l
  | _ + 1, [] => []
  | fuel + 1, c :: rest =>
      if hasPrefixL (c :: rest) pat then
        repl ++ replaceFuel pat repl fuel (List.drop (pat.length - 1) rest)
      else
        c :: replaceFuel pat repl fuel rest

/-- Global replacement of `pat` by `repl` in `s`
(`String.prototype.replace` with a global fixed-text regex). -/
def replaceL (s pat repl : String) : String :=
  String.mk (replaceFuel pat.toList repl.toList s.toList.length s.toList)

/-- Decimal digits of `n`, most significant first, with fuel. -/
def natToChars (fuel n : Nat) : List Char :=
  match fuel with
  | 0 => []
  | fuel + 1 =>
      if n < 10 then [Nat.digitChar n]
      else natToChars fuel (n / 10) ++ [Nat.digitChar (n % 10)]

/-- Template-literal stringification of a (non-negative integral) JS number. -/
def natToString (n : Nat) : String := String.mk (natToChars (n + 1) n)

/-- The forbidden-character set of the regex `[<>"\x27\x7b\x7d]`. -/
def isSuspiciousChar (c : Char) : Bool :=
  c = '<' || c = '>' || c = '\x22' || c = '\x27' || c = '\x7b' || c = '\x7d'

/- User-visible message constants, verbatim from the source. -/

def busyMsg : String := "Ein Verarbeitungsvorgang läuft bereits. Bitte warten..."

def msgEmpty : String := "Bitte geben Sie einen Firmennamen ein."

def msgShort : String := "Firmennamen müssen mindestens 3 Zeichen lang sein."

def msgLong : String := "Firmennamen dürfen maximal 200 Zeichen lang sein."

def msgChars : String :=
  "Firmennamen dürfen keine Sonderzeichen wie <, >, \x22, \x27, \x7b oder \x7d enthalten."

def startMsg : String := "Suche nach Unternehmen wird gestartet..."

def successMsg : String := "Verarbeitung erfolgreich abgeschlossen!"

def failStatusMsg : String := "Verarbeitung fehlgeschlagen"

def abortMsg : String :=
  "Die Verarbeitung dauerte zu lange und wurde abgebrochen. Bitte versuchen Sie es erneut."

def connMsg : String :=
  "Verbindungsfehler. Bitte überprüfen Sie Ihre Internetverbindung und versuchen Sie es erneut."

def unexpectedMsg : String := "Ein unerwarteter Fehler ist aufgetreten"

def unknownErrMsg : String := "Unbekannter Fehler aufgetreten"

def noFileMsg : String := "Keine Datei zum Download verfügbar"

def dlFailMsg : String := "Download fehlgeschlagen. Bitte versuchen Sie es erneut."

/-- `HTTP Error: ${response.status}` -/
def httpErrorMsg (status : Nat) : String := "HTTP Error: " ++ natToString status

/-- `validateInput` from the source: returns `none` when valid, otherwise the
error message surfaced for the first failing check. -/
def validateInput (raw : String) : Option String :=
  let input := jsTrim raw
  if input = "" then some msgEmpty
  else if input.toList.length < 3 then some msgShort
  else if input.toList.length > 200 then some msgLong
  else if input.toList.any isSuspiciousChar then some msgChars
  else none

/-- The visible document surface written by the render helpers. -/
structure Dom where
  errorText : String
  statusVisible : Bool
  statusClass : String
  statusText : String
  companyNameText : String
  fileSizeText : String
  fileNameText : String
  downloadBtnVisible : Bool
  summaryHTML : String
  extractedHTML : String
  processingTimeText : String
  qualityText : String
  qualityClass : String
  wordCountText : String
  extractionMethodText : String
  resultsVisible : Bool
  submitDisabled : Bool
deriving Repr, DecidableEq

/-- A blank document, as served before any rendering. -/
def emptyDom : Dom :=
  { errorText := ""
    statusVisible := false
    statusClass := ""
    statusText := ""
    companyNameText := ""
    fileSizeText := ""
    fileNameText := ""
    downloadBtnVisible := false
    summaryHTML := ""
    extractedHTML := ""
    processingTimeText := ""
    qualityText := ""
    qualityClass := ""
    wordCountText := ""
    extractionMethodText := ""
    resultsVisible := false
    submitDisabled := false }

/-- `populateCompanyInfo` from the source. -/
def populateCompanyInfo (result : ResultPayload) (d : Dom) : Dom :=
  let d := { d with companyNameText := orElseStr result.company_name ("Unbekannt") }
  let d := { d with fileSizeText := orElseStr result.file_size ("Unbekannt") }
  let d := { d with fileNameText := orElseStr result.filename ("Unbekannt") }
  if truthyS result.filename then { d with downloadBtnVisible := true } else d

/-- The text-shaping transform of `populateSummary`:
`.replace(/\n\n/g, '</p><p>').replace(/\n/g, '<br>')`. -/
def formatSummary (s : String) : String :=
  replaceL (replaceL s ("\n\n") ("</p><p>")) ("\n") ("<br>")

/-- `populateExtractedInfo` from the source: assembles the list markup,
appending one item per truthy field. -/
def populateExtractedInfo (info : ExtractedInfo) (d : Dom) : Dom :=
  let html := "<h3>Extrahierte Informationen</h3><ul>"
  let html := if truthyS info.organization then
      html ++ "<li><strong>Organisation:</strong> " ++ jsStr info.organization ++ "</li>"
    else html
  let html := if truthyS info.reference_number then
      html ++ "<li><strong>Referenznummer:</strong> " ++ jsStr info.reference_number ++ "</li>"
    else html
  let html := if truthyS info.location then
      html ++ "<li><strong>Ort:</strong> " ++ jsStr info.location ++ "</li>"
    else html
  let html := match info.important_dates with
    | some ds => html ++ "<li><strong>Wichtige Daten:</strong> " ++
        String.intercalate (", ") ds ++ "</li>"
    | none => html
  let html := match info.persons with
    | some ps => html ++ "<li><strong>Personen:</strong> " ++
        String.intercalate (", ") ps ++ "</li>"
    | none => html
  { d with extractedHTML := html ++ "</ul>" }

/-- `populateSummary` from the source: writes the summary markup only when
`result.summary` is truthy, then delegates to `populateExtractedInfo` when
`result.extracted_info` is present. -/
def populateSummary (result : ResultPayload) (d : Dom) : Dom :=
  let d := if truthyS result.summary then
      { d with summaryHTML := "<p>" ++ formatSummary (jsStr result.summary) ++ "</p>" }
    else d
  match result.extracted_info with
  | some info => populateExtractedInfo info d
  | none => d

/-- `populateStatistics` from the source (`result.processing_stats || \x7b\x7d`). -/
def populateStatistics (result : ResultPayload) (d : Dom) : Dom :=
  let stats := result.processing_stats.getD default
  let timeText := natToString (stats.total_time.getD 0) ++ " Sekunden"
  let d := { d with processingTimeText := timeText }
  let score := stats.quality_score.getD 0
  let scoreText := natToString score ++ "%"
  let tier := if score ≥ 80 then "high-quality"
    else if score ≥ 60 then "medium-quality" else "low-quality"
  let d := { d with qualityText := scoreText, qualityClass := tier }
  let wordText := natToString (stats.word_count.getD 0) ++ " Wörter"
  let d := { d with wordCountText := wordText }
  { d with extractionMethodText := orElseStr stats.extraction_method ("Unbekannt") }

/-- A UI effect performed by a handler, in chronological order. -/
inductive Action where
  | showErrA (msg : String) : Action
  | clearErrA : Action
  | clearResultsA : Action
  | setLoadingA (b : Bool) : Action
  | showStatusA (msg : String) : Action
  | updateStatusA (msg : String) (success : Bool) : Action
  | requestA (company : String) : Action
  | popIdentityA (r : ResultPayload) : Action
  | popSummaryA (r : ResultPayload) : Action
  | popStatsA (r : ResultPayload) : Action
  | revealA : Action
  | navigateA (path : String) : Action
deriving Repr, DecidableEq

/-- The effect of one action on the document, each case translating the
corresponding helper function of the source. -/
def applyAction (d : Dom) (a : Action) : Dom :=
  match a with
  | .showErrA msg => { d with errorText := msg }
  | .clearErrA => { d with errorText := "" }
  | .clearResultsA => { d with resultsVisible := false, statusVisible := false }
  | .setLoadingA b => { d with submitDisabled := b }
  | .showStatusA msg =>
      { d with statusVisible := true, statusClass := "processing", statusText := msg }
  | .updateStatusA msg ok =>
      { d with statusClass := if ok then "completed" else "failed", statusText := msg }
  | .requestA _ => d
  | .popIdentityA r => populateCompanyInfo r d
  | .popSummaryA r => populateSummary r d
  | .popStatsA r => populateStatistics r d
  | .revealA => { d with resultsVisible := true }
  | .navigateA _ => d

/-- Fold a handler's effect trace into the document. -/
def runDom (d : Dom) (tr : List Action) : Dom := tr.foldl applyAction d

/-- The body of the `try` block after the fetch resolves: classification of
the response into a thrown `Err` or the decoded success payload.
  * non-ok response: `errorData = await response.json().catch(() => (\x7b\x7d))`,
    then `throw new Error(errorData.error || httpErrorMsg)`;
  * ok response whose body is not JSON: `response.json()` rejects with a
    `SyntaxError`;
  * decoded body with `success` false:
    `throw new Error(result.error || unknownErrMsg)`. -/
def tryFetchBody (outcome : FetchOutcome) : Except Err ResultPayload :=
  match outcome with
  | .aborted => .error ⟨"AbortError", "signal is aborted without reason"⟩
  | .transportFail => .error ⟨"TypeError", "Failed to fetch"⟩
  | .httpError status errBody =>
      let errField : Option String := match errBody with
        | none => none
        | some e => e
      .error ⟨"Error", orElseStr errField (httpErrorMsg status)⟩
  | .ok none => .error ⟨"SyntaxError", "Unexpected end of JSON input"⟩
  | .ok (some result) =>
      if result.success then .ok result
      else .error ⟨"Error", orElseStr result.error unknownErrMsg⟩

/-- The catch-block classification: `AbortError` by name, transport failure
by the `Failed to fetch` substring of the message, otherwise
`error.message || unexpectedMsg`. -/
def classifyErrorMessage (err : Err) : String :=
  if err.name = "AbortError" then abortMsg
  else if strContains err.message ("Failed to fetch") then connMsg
  else orElseStr (some err.message) unexpectedMsg

/-- The form submit handler: the `isProcessing` gate, `clearError` and
`clearResults`, the validation gate, then the try/catch/finally around the
fetch.  Returns the final session state and the chronological effect trace. -/
def handleSubmit (st : SessState) (raw : String) (outcome : FetchOutcome) :
    SessState × List Action :=
  if st.isProcessing then
    (st, [.showErrA busyMsg])
  else
    match validateInput raw with
    | some m => (st, [.clearErrA, .clearResultsA, .showErrA m])
    | none =>
      let company := jsTrim raw
      match tryFetchBody outcome with
      | .ok result =>
          ({ isProcessing := false, latestFilename := result.filename },
           [.clearErrA, .clearResultsA, .setLoadingA true, .showStatusA startMsg,
            .requestA company, .updateStatusA successMsg true, .popIdentityA result,
            .popSummaryA result, .popStatsA result, .revealA, .setLoadingA false])
      | .error err =>
          ({ st with isProcessing := false },
           [.clearErrA, .clearResultsA, .setLoadingA true, .showStatusA startMsg,
            .requestA company, .showErrA (classifyErrorMessage err),
            .updateStatusA failStatusMsg false, .setLoadingA false])

/-- The download button click handler.  `navOk` is whether the navigation
(`window.location.href = ...`) succeeds; when it throws, the catch reports
the failure instead of propagating. -/
def handleDownload (st : SessState) (navOk : Bool) : List Action :=
  if !(truthyS st.latestFilename) then [.showErrA noFileMsg]
  else if navOk then [.navigateA ("/download/" ++ jsStr st.latestFilename)]
  else [.showErrA dlFailMsg]

/-- The spec §8 success scenario payload. -/
def samplePayload : ResultPayload :=
  { success := true, error := none, filename := some ("r1.pdf"),
    company_name := some ("Acme Corp"), file_size := some ("12KB"),
    summary := some ("Line1\n\nLine2"), extracted_info := none,
    processing_stats := none }

/-- A successful payload with every optional field absent. -/
def emptyPayload : ResultPayload :=
  { success := true, error := none, filename := none, company_name := none,
    file_size := none, summary := none, extracted_info := none,
    processing_stats := none }

/-! Helper lemmas. -/

lemma populateCompanyInfo_statusClass (r : ResultPayload) (d : Dom) :
    (populateCompanyInfo r d).statusClass = d.statusClass := by
  by_cases h : truthyS r.filename <;> simp [populateCompanyInfo, h]

lemma populateExtractedInfo_statusClass (info : ExtractedInfo) (d : Dom) :
    (populateExtractedInfo info d).statusClass = d.statusClass := rfl

lemma populateExtractedInfo_summaryHTML (info : ExtractedInfo) (d : Dom) :
    (populateExtractedInfo info d).summaryHTML = d.summaryHTML := rfl

lemma populateSummary_statusClass (r : ResultPayload) (d : Dom) :
    (populateSummary r d).statusClass = d.statusClass := by
  cases h : r.extracted_info <;> by_cases ht : truthyS r.summary <;>
    simp [populateSummary, h, ht, populateExtractedInfo_statusClass]

lemma populateStatistics_statusClass (r : ResultPayload) (d : Dom) :
    (populateStatistics r d).statusClass = d.statusClass := rfl

lemma digitChar_ne_F (m : Nat) (hm : m < 10) : Nat.digitChar m ≠ 'F' := by
  interval_cases m <;> decide

lemma natToChars_ne_F : ∀ fuel n : Nat, ∀ c ∈ natToChars fuel n, c ≠ 'F' := by
  intro fuel
  induction fuel with
  | zero => intro n c hc; simp [natToChars] at hc
  | succ f ih =>
      intro n c hc
      by_cases h : n < 10
      · simp [natToChars, h] at hc
        subst hc; exact digitChar_ne_F n h
      · simp [natToChars, h] at hc
        rcases hc with hc | hc
        · exact ih _ _ hc
        · subst hc
          exact digitChar_ne_F _ (Nat.mod_lt _ (by omega))

lemma hasInfixL_fetch_eq_false (s : List Char) (hs : ∀ c ∈ s, c ≠ 'F') :
    hasInfixL (String.toList ("Failed to fetch")) s = false := by
  induction s with
  | nil => rfl
  | cons c rest ih =>
      have hc : c ≠ 'F' := hs c (List.mem_cons_self c rest)
      have hrest : ∀ x ∈ rest, x ≠ 'F' := fun x hx => hs x (List.mem_cons_of_mem c hx)
      show (hasPrefixL (c :: rest) (String.toList ("Failed to fetch")) ||
        hasInfixL (String.toList ("Failed to fetch")) rest) = false
      rw [ih hrest, Bool.or_false]
      show (decide (c = 'F') && hasPrefixL rest (String.toList ("ailed to fetch"))) = false
      simp [hc]

lemma mk_cons_ne_empty (c : Char) (l : List Char) : String.mk (c :: l) ≠ "" := by
  intro h
  have hd : c :: l = ([] : List Char) := congrArg String.data h
  exact List.noConfusion hd

lemma httpErrorMsg_ne_empty (n : Nat) : httpErrorMsg n ≠ "" := by
  have hrepr : httpErrorMsg n =
      String.mk ('H' :: (String.toList ("TTP Error: ") ++ natToChars (n + 1) n)) := rfl
  rw [hrepr]
  exact mk_cons_ne_empty _ _

lemma httpErrorMsg_no_fetch (n : Nat) :
    strContains (httpErrorMsg n) ("Failed to fetch") = false := by
  have hrepr : httpErrorMsg n =
      String.mk ('H' :: (String.toList ("TTP Error: ") ++ natToChars (n + 1) n)) := rfl
  rw [strContains, hrepr]
  apply hasInfixL_fetch_eq_false
  intro c hc
  rcases List.mem_cons.mp hc with hc | hc
  · subst hc; decide
  · rcases List.mem_append.mp hc with hc | hc
    · have hall : ∀ x ∈ String.toList ("TTP Error: "), x ≠ 'F' := by decide
      exact hall c hc
    · exact natToChars_ne_F _ _ _ hc

/-! Claim theorems. -/

/-- Claim C4: a submission attempted while `isProcessing` is true is rejected
(not queued) with the advisory busy message, no request is issued, and the
session state (`isProcessing`, `latestFilename`) is unchanged. -/
theorem busy_submission_rejected (st : SessState) (raw : String)
    (outcome : FetchOutcome) (h : st.isProcessing = true) :
    handleSubmit st raw outcome = (st, [Action.showErrA busyMsg]) ∧
    ∀ c, Action.requestA c ∉ (handleSubmit st raw outcome).2 := by
  constructor
  · simp [handleSubmit, h]
  · intro c
    simp [handleSubmit, h]

/-- Claim C4 witness: the rejection at a concrete busy state. -/
theorem busy_submission_rejected_witness :
    handleSubmit ⟨true, some ("x.pdf")⟩ ("Acme Corp") FetchOutcome.aborted
      = (⟨true, some ("x.pdf")⟩, [Action.showErrA busyMsg]) ∧
    ∀ c, Action.requestA c ∉
      (handleSubmit ⟨true, some ("x.pdf")⟩ ("Acme Corp") FetchOutcome.aborted).2 :=
  busy_submission_rejected ⟨true, some ("x.pdf")⟩ ("Acme Corp") FetchOutcome.aborted rfl

/-- Claim C3: for every accepted submission and every fetch outcome, the
handler leaves the processing state (`isProcessing` is false) and re-enables
the submit control (the final `setButtonLoading(false)` of the `finally`
block), including the outcomes raised during classification or error-body
JSON decoding. -/
theorem processing_state_always_cleared (st : SessState) (raw : String)
    (outcome : FetchOutcome) (d : Dom)
    (hidle : st.isProcessing = false) (hvalid : validateInput raw = none) :
    (handleSubmit st raw outcome).1.isProcessing = false ∧
    (runDom d (handleSubmit st raw outcome).2).submitDisabled = false := by
  cases htry : tryFetchBody outcome with
  | ok r => simp [handleSubmit, hidle, hvalid, htry, runDom, applyAction]
  | error e => simp [handleSubmit, hidle, hvalid, htry, runDom, applyAction]

/-- Claim C3 witness: cleanup after a concrete aborted submission. -/
theorem processing_state_always_cleared_witness :
    (handleSubmit initState ("Acme Corp") FetchOutcome.aborted).1.isProcessing = false ∧
    (runDom emptyDom
      (handleSubmit initState ("Acme Corp") FetchOutcome.aborted).2).submitDisabled = false :=
  processing_state_always_cleared initState ("Acme Corp") FetchOutcome.aborted emptyDom
    rfl (by decide)

/-- Claim C5: submit-time validation checks non-empty, length at least 3,
length at most 200, then the forbidden-character set, in that order, and the
first failing constraint alone yields the message; on any rejection the
handler stops after surfacing the message and issues no request. -/
theorem validation_order_first_failure (raw : String) (st : SessState)
    (outcome : FetchOutcome) :
    (jsTrim raw = "" → validateInput raw = some msgEmpty) ∧
    (jsTrim raw ≠ "" → (jsTrim raw).toList.length < 3 →
       validateInput raw = some msgShort) ∧
    (jsTrim raw ≠ "" → ¬ (jsTrim raw).toList.length < 3 →
       (jsTrim raw).toList.length > 200 → validateInput raw = some msgLong) ∧
    (jsTrim raw ≠ "" → ¬ (jsTrim raw).toList.length < 3 →
       ¬ (jsTrim raw).toList.length > 200 →
       (jsTrim raw).toList.any isSuspiciousChar = true →
       validateInput raw = some msgChars) ∧
    (jsTrim raw ≠ "" → ¬ (jsTrim raw).toList.length < 3 →
       ¬ (jsTrim raw).toList.length > 200 →
       (jsTrim raw).toList.any isSuspiciousChar = false →
       validateInput raw = none) ∧
    (∀ m, validateInput raw = some m → st.isProcessing = false →
       (handleSubmit st raw outcome).2
         = [Action.clearErrA, Action.clearResultsA, Action.showErrA m] ∧
       ∀ c, Action.requestA c ∉ (handleSubmit st raw outcome).2) := by
  refine ⟨?_, ?_, ?_, ?_, ?_, ?_⟩
  · intro h1
    simp only [validateInput]
    rw [if_pos h1]
  · intro h1 h2
    simp only [validateInput]
    rw [if_neg h1, if_pos h2]
  · intro h1 h2 h3
    simp only [validateInput]
    rw [if_neg h1, if_neg h2, if_pos h3]
  · intro h1 h2 h3 h4
    simp only [validateInput]
    rw [if_neg h1, if_neg h2, if_neg h3, if_pos h4]
  · intro h1 h2 h3 h4
    have h4n : ¬ ((jsTrim raw).toList.any isSuspiciousChar = true) := by
      rw [h4]
      exact Bool.false_ne_true
    simp only [validateInput]
    rw [if_neg h1, if_neg h2, if_neg h3, if_neg h4n]
  · intro m hm hidle
    constructor
    · simp [handleSubmit, hidle, hm]
    · intro c
      simp [handleSubmit, hidle, hm]

/-- Claim C5 witness: `"a<"` trims to length 2, so the "too short" message
wins over the forbidden-character one, and no request action is emitted. -/
theorem validation_order_first_failure_witness :
    validateInput ("a<") = some msgShort ∧
    (handleSubmit initState ("a<") FetchOutcome.aborted).2
      = [Action.clearErrA, Action.clearResultsA, Action.showErrA msgShort] := by
  have hval : validateInput ("a<") = some msgShort :=
    (validation_order_first_failure ("a<") initState FetchOutcome.aborted).2.1
      (by decide) (by decide)
  exact ⟨hval,
    ((validation_order_first_failure ("a<") initState FetchOutcome.aborted).2.2.2.2.2
      msgShort hval rfl).1⟩

/-- Claim C9: the download trigger reports an error and performs no
navigation when no filename is on record; otherwise it navigates to the fixed
download path for the recorded filename, a navigation failure is caught and
reported instead of propagated, and no submit outcome ever emits a
navigation — the trigger never fires automatically. -/
theorem download_gate_and_no_autofire (st : SessState) (navOk : Bool)
    (raw : String) (outcome : FetchOutcome) :
    (truthyS st.latestFilename = false →
       handleDownload st navOk = [Action.showErrA noFileMsg]) ∧
    (truthyS st.latestFilename = true → navOk = true →
       handleDownload st navOk
         = [Action.navigateA ("/download/" ++ jsStr st.latestFilename)]) ∧
    (truthyS st.latestFilename = true → navOk = false →
       handleDownload st navOk = [Action.showErrA dlFailMsg]) ∧
    (∀ p, Action.navigateA p ∉ (handleSubmit st raw outcome).2) := by
  refine ⟨?_, ?_, ?_, ?_⟩
  · intro h
    simp [handleDownload, h]
  · intro h hn
    subst hn
    simp [handleDownload, h]
  · intro h hn
    subst hn
    simp [handleDownload, h]
  · intro p
    by_cases hp : st.isProcessing = true
    · simp [handleSubmit, hp]
    · cases hv : validateInput raw with
      | some m => simp [handleSubmit, hp, hv]
      | none =>
          cases ht : tryFetchBody outcome with
          | ok r => simp [handleSubmit, hp, hv, ht]
          | error e => simp [handleSubmit, hp, hv, ht]

/-- Claim C9 witness: with `"r1.pdf"` on record a click navigates to the
fixed path, and a concrete submit trace contains no navigation. -/
theorem download_gate_and_no_autofire_witness :
    handleDownload ⟨false, some ("r1.pdf")⟩ true
      = [Action.navigateA ("/download/r1.pdf")] ∧
    ∀ p, Action.navigateA p ∉
      (handleSubmit ⟨false, some ("r1.pdf")⟩ ("Acme Corp") FetchOutcome.aborted).2 :=
  ⟨(download_gate_and_no_autofire ⟨false, some ("r1.pdf")⟩ true ("Acme Corp")
      FetchOutcome.aborted).2.1 rfl rfl,
   (download_gate_and_no_autofire ⟨false, some ("r1.pdf")⟩ true ("Acme Corp")
      FetchOutcome.aborted).2.2.2⟩

/-- Claim C10: `latestFilename` is assigned only on the success path — every
error outcome preserves it — so after a success followed by a failed
submission the download trigger still navigates to the earlier file. -/
theorem latestFilename_frame (st : SessState) (raw raw2 : String)
    (outcome out2 : FetchOutcome) (err : Err) (r : ResultPayload) :
    (tryFetchBody outcome = Except.error err →
       (handleSubmit st raw outcome).1.latestFilename = st.latestFilename) ∧
    (st.isProcessing = false → validateInput raw = none →
     tryFetchBody outcome = Except.ok r →
     validateInput raw2 = none → tryFetchBody out2 = Except.error err →
     truthyS r.filename = true →
       (handleSubmit (handleSubmit st raw outcome).1 raw2 out2).1.latestFilename
         = r.filename ∧
       handleDownload (handleSubmit (handleSubmit st raw outcome).1 raw2 out2).1 true
         = [Action.navigateA ("/download/" ++ jsStr r.filename)]) := by
  constructor
  · intro herr
    by_cases hp : st.isProcessing = true
    · simp [handleSubmit, hp]
    · cases hv : validateInput raw with
      | some m => simp [handleSubmit, hp, hv]
      | none => simp [handleSubmit, hp, hv, herr]
  · intro hidle hv1 hok hv2 herr htr
    have hst1 : (handleSubmit st raw outcome).1 = ⟨false, r.filename⟩ := by
      simp [handleSubmit, hidle, hv1, hok]
    rw [hst1]
    have hst2 : (handleSubmit (⟨false, r.filename⟩ : SessState) raw2 out2).1
        = ⟨false, r.filename⟩ := by
      simp [handleSubmit, hv2, herr]
    rw [hst2]
    exact ⟨rfl, by simp [handleDownload, htr]⟩

/-- Claim C10 witness: a concrete success (`r1.pdf`) followed by a concrete
HTTP 500 failure keeps `r1.pdf` as the download target. -/
theorem latestFilename_frame_witness :
    (handleSubmit
        (handleSubmit initState ("Acme Corp") (FetchOutcome.ok (some samplePayload))).1
        "Acme Corp" (FetchOutcome.httpError 500 (some (some ("db down"))))).1.latestFilename
      = samplePayload.filename ∧
    handleDownload
        (handleSubmit
          (handleSubmit initState ("Acme Corp") (FetchOutcome.ok (some samplePayload))).1
          "Acme Corp" (FetchOutcome.httpError 500 (some (some ("db down"))))).1 true
      = [Action.navigateA ("/download/" ++ jsStr samplePayload.filename)] :=
  (latestFilename_frame initState ("Acme Corp") ("Acme Corp")
      (FetchOutcome.ok (some samplePayload))
      (FetchOutcome.httpError 500 (some (some ("db down"))))
      ⟨"Error", "db down"⟩ samplePayload).2
    rfl (by decide) rfl (by decide) rfl (by decide)

/-- Claim C6: on HTTP success with `success: true`, `latestFilename` equals
the response's filename field exactly, the status entry is marked completed,
and the trace populates the identity, summary (with extracted info) and
statistics regions strictly before the reveal-and-scroll action, which is the
last UI-visible step before the cleanup of the `finally` block. -/
theorem success_renders_before_reveal (st : SessState) (raw : String)
    (outcome : FetchOutcome) (r : ResultPayload) (d : Dom)
    (hidle : st.isProcessing = false) (hvalid : validateInput raw = none)
    (hok : tryFetchBody outcome = Except.ok r) :
    (handleSubmit st raw outcome).1.latestFilename = r.filename ∧
    (handleSubmit st raw outcome).2
      = [Action.clearErrA, Action.clearResultsA, Action.setLoadingA true,
         Action.showStatusA startMsg, Action.requestA (jsTrim raw),
         Action.updateStatusA successMsg true, Action.popIdentityA r,
         Action.popSummaryA r, Action.popStatsA r, Action.revealA,
         Action.setLoadingA false] ∧
    (runDom d (handleSubmit st raw outcome).2).statusClass = "completed" ∧
    (runDom d (handleSubmit st raw outcome).2).resultsVisible = true := by
  refine ⟨?_, ?_, ?_, ?_⟩ <;>
    simp [handleSubmit, hidle, hvalid, hok, runDom, applyAction,
      populateCompanyInfo_statusClass, populateSummary_statusClass,
      populateStatistics_statusClass]

/-- Claim C6 witness: the spec §8 scenario payload, with `r1.pdf` recorded
and the results region visible at the end. -/
theorem success_renders_before_reveal_witness :
    (handleSubmit initState ("Acme Corp") (FetchOutcome.ok (some samplePayload))).1.latestFilename
      = samplePayload.filename ∧
    (handleSubmit initState ("Acme Corp") (FetchOutcome.ok (some samplePayload))).2
      = [Action.clearErrA, Action.clearResultsA, Action.setLoadingA true,
         Action.showStatusA startMsg, Action.requestA (jsTrim ("Acme Corp")),
         Action.updateStatusA successMsg true, Action.popIdentityA samplePayload,
         Action.popSummaryA samplePayload, Action.popStatsA samplePayload,
         Action.revealA, Action.setLoadingA false] ∧
    (runDom emptyDom
      (handleSubmit initState ("Acme Corp") (FetchOutcome.ok (some samplePayload))).2).statusClass
      = "completed" ∧
    (runDom emptyDom
      (handleSubmit initState ("Acme Corp") (FetchOutcome.ok (some samplePayload))).2).resultsVisible
      = true :=
  success_renders_before_reveal initState ("Acme Corp")
    (FetchOutcome.ok (some samplePayload)) samplePayload emptyDom
    rfl (by decide) rfl

/-- Claim C8: a non-success HTTP response with a non-JSON body does not
propagate the decoding failure: the `.catch` fallback yields an empty error
object, so the generic `HTTP Error: status` message is shown, the status
entry is marked failed, and the controller exits the processing state with
the submit control re-enabled. -/
theorem nonjson_error_body_fallback (st : SessState) (raw : String)
    (status : Nat) (d : Dom)
    (hidle : st.isProcessing = false) (hvalid : validateInput raw = none) :
    (runDom d (handleSubmit st raw (FetchOutcome.httpError status none)).2).errorText
      = httpErrorMsg status ∧
    (runDom d (handleSubmit st raw (FetchOutcome.httpError status none)).2).statusClass
      = "failed" ∧
    (handleSubmit st raw (FetchOutcome.httpError status none)).1.isProcessing = false ∧
    (runDom d (handleSubmit st raw (FetchOutcome.httpError status none)).2).submitDisabled
      = false := by
  have htry : tryFetchBody (FetchOutcome.httpError status none)
      = Except.error ⟨"Error", httpErrorMsg status⟩ := by
    simp [tryFetchBody, orElseStr]
  have hclass : classifyErrorMessage ⟨"Error", httpErrorMsg status⟩
      = httpErrorMsg status := by
    unfold classifyErrorMessage
    rw [if_neg (by decide : ¬ (("Error" : String) = "AbortError"))]
    rw [httpErrorMsg_no_fetch]
    simp [orElseStr, httpErrorMsg_ne_empty status]
  refine ⟨?_, ?_, ?_, ?_⟩ <;>
    simp [handleSubmit, hidle, hvalid, htry, hclass, runDom, applyAction]

/-- Claim C8 witness: a concrete HTTP 500 with a non-JSON body. -/
theorem nonjson_error_body_fallback_witness :
    (runDom emptyDom
      (handleSubmit initState ("Acme Corp") (FetchOutcome.httpError 500 none)).2).errorText
      = httpErrorMsg 500 ∧
    (runDom emptyDom
      (handleSubmit initState ("Acme Corp") (FetchOutcome.httpError 500 none)).2).statusClass
      = "failed" ∧
    (handleSubmit initState ("Acme Corp") (FetchOutcome.httpError 500 none)).1.isProcessing
      = false ∧
    (runDom emptyDom
      (handleSubmit initState ("Acme Corp") (FetchOutcome.httpError 500 none)).2).submitDisabled
      = false :=
  nonjson_error_body_fallback initState ("Acme Corp") 500 emptyDom rfl (by decide)

/-- Claim C1 counterexample: a server-supplied application-error text that
contains the substring matched by the transport-failure check is shown as the
connectivity message, not as the server text, refuting "never the
transport-failure connectivity message" for server-supplied texts. -/
theorem server_error_text_shadowed_counterexample :
    (runDom emptyDom (handleSubmit initState ("Acme Corp")
        (FetchOutcome.httpError 502
          (some (some ("Failed to fetch document from registry"))))).2).errorText
      = connMsg ∧
    connMsg ≠ "Failed to fetch document from registry" := by
  exact ⟨by decide, by decide⟩

/-- Claim C1 (amended): the catch-block classification is a total function
assigning each of the three error outcomes exactly one message — the timeout
message for a cancellation, the connectivity message for a transport failure,
and the server-supplied text for an application failure provided that text is
non-empty and does not contain the substring `Failed to fetch` (otherwise the
connectivity or generic message is substituted); each failure marks the
status entry failed and none prevents the guaranteed cleanup; the three kind
messages are pairwise distinct. -/
theorem errorKind_classification_amended (st : SessState) (raw : String)
    (d : Dom) (status : Nat) (e : String)
    (hidle : st.isProcessing = false) (hvalid : validateInput raw = none)
    (hne : e ≠ "") (hnf : strContains e ("Failed to fetch") = false) :
    ((runDom d (handleSubmit st raw FetchOutcome.aborted).2).errorText = abortMsg ∧
     (runDom d (handleSubmit st raw FetchOutcome.aborted).2).statusClass = "failed" ∧
     (handleSubmit st raw FetchOutcome.aborted).1.isProcessing = false) ∧
    ((runDom d (handleSubmit st raw FetchOutcome.transportFail).2).errorText = connMsg ∧
     (runDom d (handleSubmit st raw FetchOutcome.transportFail).2).statusClass = "failed" ∧
     (handleSubmit st raw FetchOutcome.transportFail).1.isProcessing = false) ∧
    ((runDom d (handleSubmit st raw
        (FetchOutcome.httpError status (some (some e)))).2).errorText = e ∧
     (runDom d (handleSubmit st raw
        (FetchOutcome.httpError status (some (some e)))).2).statusClass = "failed" ∧
     (handleSubmit st raw
        (FetchOutcome.httpError status (some (some e)))).1.isProcessing = false) ∧
    (abortMsg ≠ connMsg ∧ abortMsg ≠ unexpectedMsg ∧ connMsg ≠ unexpectedMsg) := by
  have habort : classifyErrorMessage ⟨"AbortError", "signal is aborted without reason"⟩
      = abortMsg := by decide
  have htrans : classifyErrorMessage ⟨"TypeError", "Failed to fetch"⟩ = connMsg := by
    decide
  have htry : tryFetchBody (FetchOutcome.httpError status (some (some e)))
      = Except.error ⟨"Error", e⟩ := by
    simp [tryFetchBody, orElseStr, hne]
  have happ : classifyErrorMessage ⟨"Error", e⟩ = e := by
    unfold classifyErrorMessage
    rw [if_neg (by decide : ¬ (("Error" : String) = "AbortError"))]
    rw [hnf]
    simp [orElseStr, hne]
  refine ⟨⟨?_, ?_, ?_⟩, ⟨?_, ?_, ?_⟩, ⟨?_, ?_, ?_⟩, by decide, by decide, by decide⟩ <;>
    simp [handleSubmit, hidle, hvalid, tryFetchBody, orElseStr, hne, habort, htrans,
      happ, runDom, applyAction]

/-- Claim C1 witness: concrete cancellation, transport and application
failures, the latter with server text `db down`. -/
theorem errorKind_classification_amended_witness :
    ((runDom emptyDom (handleSubmit initState ("Acme Corp") FetchOutcome.aborted).2).errorText
        = abortMsg ∧
     (runDom emptyDom (handleSubmit initState ("Acme Corp") FetchOutcome.aborted).2).statusClass
        = "failed" ∧
     (handleSubmit initState ("Acme Corp") FetchOutcome.aborted).1.isProcessing = false) ∧
    ((runDom emptyDom
        (handleSubmit initState ("Acme Corp") FetchOutcome.transportFail).2).errorText
        = connMsg ∧
     (runDom emptyDom
        (handleSubmit initState ("Acme Corp") FetchOutcome.transportFail).2).statusClass
        = "failed" ∧
     (handleSubmit initState ("Acme Corp") FetchOutcome.transportFail).1.isProcessing = false) ∧
    ((runDom emptyDom (handleSubmit initState ("Acme Corp")
        (FetchOutcome.httpError 500 (some (some ("db down"))))).2).errorText = "db down" ∧
     (runDom emptyDom (handleSubmit initState ("Acme Corp")
        (FetchOutcome.httpError 500 (some (some ("db down"))))).2).statusClass = "failed" ∧
     (handleSubmit initState ("Acme Corp")
        (FetchOutcome.httpError 500 (some (some ("db down"))))).1.isProcessing = false) ∧
    (abortMsg ≠ connMsg ∧ abortMsg ≠ unexpectedMsg ∧ connMsg ≠ unexpectedMsg) :=
  errorKind_classification_amended initState ("Acme Corp") emptyDom 500 ("db down")
    rfl (by decide) (by decide) (by decide)

/-- Claim C2 (code evaluated at the failing input): the summary transform is
exactly the double-newline-to-paragraph and newline-to-line-break shaping,
and the server text is inserted into the markup with no neutralization of
HTML-sensitive characters: a script tag in the summary reaches the rendered
markup verbatim. -/
theorem summary_injection_unescaped :
    formatSummary ("Line1\n\nLine2\nLine3") = "Line1</p><p>Line2<br>Line3" ∧
    (populateSummary
        { success := true, error := none, filename := some ("r1.pdf"),
          company_name := none, file_size := none,
          summary := some ("<script>alert(1)</script>\nX"),
          extracted_info := none, processing_stats := none } emptyDom).summaryHTML
      = "<p><script>alert(1)</script><br>X</p>" ∧
    strContains ("<p><script>alert(1)</script><br>X</p>") ("<script>") = true := by
  exact ⟨by decide, by decide, by decide⟩

/-- Claim C7 counterexample: with `summary` absent the summary region is left
untouched (blank), and with `extracted_info` absent the extracted-info region
is left untouched (blank) — neither shows a fallback token. -/
theorem absent_summary_left_blank_counterexample :
    (populateSummary
        { success := true, error := none, filename := some ("r1.pdf"),
          company_name := some ("Acme Corp"), file_size := some ("12KB"),
          summary := none, extracted_info := none, processing_stats := none }
        emptyDom).summaryHTML = "" ∧
    (populateSummary
        { success := true, error := none, filename := some ("r1.pdf"),
          company_name := some ("Acme Corp"), file_size := some ("12KB"),
          summary := none, extracted_info := none, processing_stats := none }
        emptyDom).extractedHTML = "" ∧
    "" ≠ "Unbekannt" := by
  exact ⟨by decide, by decide, by decide⟩

/-- Claim C7 (amended): rendering is total (never throws) and the regions are
independent; the identity fields and the statistics fields each fall back to
their fixed tokens (`Unbekannt`, `0 ...`) when absent, while an absent
summary or absent extracted info leaves that region unchanged (blank) rather
than showing a fallback token; extracted info never alters the summary
markup. -/
theorem optional_fields_render_amended (r : ResultPayload) (d : Dom) :
    (r.company_name = none → (populateCompanyInfo r d).companyNameText = "Unbekannt") ∧
    (r.file_size = none → (populateCompanyInfo r d).fileSizeText = "Unbekannt") ∧
    (r.filename = none → (populateCompanyInfo r d).fileNameText = "Unbekannt") ∧
    (r.processing_stats = none →
       (populateStatistics r d).processingTimeText = "0 Sekunden" ∧
       (populateStatistics r d).qualityText = "0%" ∧
       (populateStatistics r d).wordCountText = "0 Wörter" ∧
       (populateStatistics r d).extractionMethodText = "Unbekannt") ∧
    (r.summary = none → r.extracted_info = none → populateSummary r d = d) ∧
    (∀ info, (populateExtractedInfo info d).summaryHTML = d.summaryHTML) ∧
    (∀ s, r.summary = some s → s ≠ "" →
       (populateSummary r d).summaryHTML = "<p>" ++ formatSummary s ++ "</p>") := by
  refine ⟨?_, ?_, ?_, ?_, ?_, ?_, ?_⟩
  · intro h
    by_cases hf : truthyS r.filename <;> simp [populateCompanyInfo, orElseStr, h, hf]
  · intro h
    by_cases hf : truthyS r.filename <;> simp [populateCompanyInfo, orElseStr, h, hf]
  · intro h
    simp [populateCompanyInfo, orElseStr, h, truthyS]
  · intro h
    refine ⟨?_, ?_, ?_, ?_⟩ <;> simp [populateStatistics, h, orElseStr] <;> decide
  · intro h1 h2
    simp [populateSummary, h1, h2, truthyS]
  · intro info
    exact populateExtractedInfo_summaryHTML info d
  · intro s hs hne
    have ht : truthyS (some s) = true := by simp [truthyS, hne]
    cases hx : r.extracted_info with
    | none => simp [populateSummary, hx, ht, hs, jsStr]
    | some info =>
        simp [populateSummary, hx, ht, hs, jsStr, populateExtractedInfo_summaryHTML]

/-- Claim C7 witness: the all-absent payload renders the identity fallback,
the statistics fallback, and leaves the summary region untouched. -/
theorem optional_fields_render_amended_witness :
    (populateCompanyInfo emptyPayload emptyDom).companyNameText = "Unbekannt" ∧
    (populateStatistics emptyPayload emptyDom).processingTimeText = "0 Sekunden" ∧
    populateSummary emptyPayload emptyDom = emptyDom :=
  ⟨(optional_fields_render_amended emptyPayload emptyDom).1 rfl,
   ((optional_fields_render_amended emptyPayload emptyDom).2.2.2.1 rfl).1,
   (optional_fields_render_amended emptyPayload emptyDom).2.2.2.2.1 rfl rfl⟩

end PdfApp
